import Mathlib

/-!
Shallow embedding of the zendesk-cx-bot webhook service.

The service receives Zendesk ticket events and Twilio WhatsApp messages,
forwards ticket text to a classification backend, and writes results back
to Zendesk.  The embedding below translates the repository functions into
pure Lean functions:

* Python dicts flowing through the Zendesk update paths are modelled by the
  JSON value type `Jv`; responses whose shape the code consumes through a
  fixed set of keys are modelled by structures with `Option` fields
  (a `none` field models an absent key).
* Python float literals are modelled as exact fractions (`PyNum`), and the
  format spec `.2%` is modelled with round-half-even on those fractions.
* Network effects are made explicit: the simulated reply of the external
  HTTP endpoint is an input (`NetReply`) and the outgoing PUT requests are
  returned as a trace (`List PutRequest`), so that claims about requests
  that are or are not issued become statements about the trace.
-/

/-- Whitespace characters recognised by Python str.strip and the regex
class for whitespace, restricted to the ASCII range used by the service. -/
def isPySpace (c : Char) : Bool :=
  c = ' ' || c = '\t' || c = '\n' || c = '\r' || c = '\x0b' || c = '\x0c'

/-- Translation of Python str.strip(): drop whitespace on both ends. -/
def stripPy (s : String) : String :=
  String.mk (((s.toList.dropWhile isPySpace).reverse.dropWhile isPySpace).reverse)

/-- Translation of Python str.lower() on the ASCII letters the service
compares against. -/
def pyLower (s : String) : String :=
  String.mk (s.toList.map Char.toLower)

/-- Check that the second list is a prefix of the first-argument position:
startsList needle hay-suffix. -/
def startsList : List Char → List Char → Bool
  | [], _ => true
  | _ :: _, [] => false
  | c :: cs, x :: xs => c = x && startsList cs xs

/-- Substring occurrence test on character lists. -/
def containsList (needle : List Char) : List Char → Bool
  | [] => needle.isEmpty
  | x :: xs => startsList needle (x :: xs) || containsList needle xs

/-- Translation of the Python membership test needle in hay on strings. -/
def pyContains (hay needle : String) : Bool :=
  containsList needle.toList hay.toList

/-- Translation of Python str.startswith. -/
def pyStartsWith (s pre : String) : Bool :=
  startsList pre.toList s.toList

/-- Translation of re.sub applied with the non-digit class to erase every
non-digit character (TwilioService, formatting phone numbers). -/
def digitsOnly (s : String) : String :=
  String.mk (s.toList.filter Char.isDigit)

/-- Exact-fraction model of a Python float value: numerator over
denominator.  The float literals reaching the formatting code in the
claims are exactly representable this way. -/
structure PyNum where
  num : Int
  den : Nat
deriving DecidableEq

/-- Round n / d to the nearest integer, ties to even, as Python rounding
of a half-way value behaves for the decimal values in the claims. -/
def roundHalfEvenFrac (n : Int) (d : Nat) : Int :=
  let di : Int := (d : Int)
  let f := n.ediv di
  let r := n.emod di
  if 2 * r < di then f else if 2 * r > di then f + 1 else if f % 2 = 0 then f else f + 1

/-- Left-pad a two-digit fraction part with a zero. -/
def twoDigits (n : Nat) : String :=
  if n < 10 then "0" ++ toString n else toString n

/-- Translation of the Python format spec .2% used in the categorization
comment bodies: the value is scaled by 100 and printed with exactly two
decimal places and a percent sign. -/
def formatPercentPy (x : PyNum) : String :=
  let cents := roundHalfEvenFrac (x.num * 10000) x.den
  let a := cents.natAbs
  let sign := if cents < 0 then "-" else ""
  sign ++ toString (a / 100) ++ "." ++ twoDigits (a % 100) ++ "%"

/-- JSON values, modelling the Python dicts and lists that the service
builds for Zendesk request bodies and webhook responses.  Object fields
keep insertion order, as Python dicts do. -/
inductive Jv where
  | null : Jv
  | bool (b : Bool) : Jv
  | num (q : PyNum) : Jv
  | str (s : String) : Jv
  | arr (elems : List Jv) : Jv
  | obj (fields : List (String × Jv)) : Jv

/-- First value bound to a key in an association list. -/
def lookupKey (k : String) : List (String × Jv) → Option Jv
  | [] => none
  | (k2, v) :: rest => if k2 = k then some v else lookupKey k rest

/-- Dictionary lookup, defined only on objects. -/
def jget (j : Jv) (k : String) : Option Jv :=
  match j with
  | .obj kvs => lookupKey k kvs
  | _ => none

/-- Lookup two levels deep. -/
def jget2 (j : Jv) (k1 k2 : String) : Option Jv :=
  match jget j k1 with
  | some x => jget x k2
  | none => none

/-- Lookup three levels deep. -/
def jget3 (j : Jv) (k1 k2 k3 : String) : Option Jv :=
  match jget2 j k1 k2 with
  | some x => jget x k3
  | none => none

/-- Key list of an object, in insertion order. -/
def jvKeys : Jv → List String
  | .obj kvs => kvs.map Prod.fst
  | _ => []

/-- Dictionary assignment on an association list: replace the value of an
existing key in place, else append the new key at the end, matching the
ordering behaviour of Python dict assignment. -/
def setKey (k : String) (v : Jv) : List (String × Jv) → List (String × Jv)
  | [] => [(k, v)]
  | (k2, v2) :: rest => if k2 = k then (k2, v) :: rest else (k2, v2) :: setKey k v rest

/-- Dictionary assignment on a JSON value. -/
def jvObjSet (j : Jv) (k : String) (v : Jv) : Jv :=
  match j with
  | .obj kvs => .obj (setKey k v kvs)
  | other => other

/-- Test used by ZendeskService.update_ticket_tags on the result of
update_ticket: the value under the status key equals the success marker. -/
def jvStatusIsSuccess (j : Jv) : Bool :=
  match jget j "status" with
  | some (Jv.str s) => if s = "success" then true else false
  | _ => false

/-- Model of the categorization adapter response dict.  The source reads
exactly the keys status, category, confidence and model_used with .get and
a default, so the dict is modelled by one Option field per key. -/
structure CategorizationResponse where
  status : Option String
  category : Option String
  confidence : Option PyNum
  model_used : Option String
deriving DecidableEq

/-- Embedding of a categorization response back into the JSON model
(present keys only), used where the source places the original response
dict inside an error payload. -/
def jvOfCategorization (r : CategorizationResponse) : Jv :=
  Jv.obj
    ((match r.status with | some s => [("status", Jv.str s)] | none => [])
      ++ (match r.category with | some s => [("category", Jv.str s)] | none => [])
      ++ (match r.confidence with | some q => [("confidence", Jv.num q)] | none => [])
      ++ (match r.model_used with | some s => [("model_used", Jv.str s)] | none => []))

/-- Zendesk credentials as read from the environment / settings. -/
structure ZendeskConfig where
  zendesk_domain : String
  zendesk_email : String
  zendesk_api_key : String
deriving DecidableEq

/-- Simulated reply of the external Zendesk HTTP endpoint. -/
structure NetReply where
  status_code : Nat
  json_body : Jv
  text : String

/-- Record of one outgoing PUT request to the Zendesk ticket resource. -/
structure PutRequest where
  url : String
  update_data : Jv

/-- Translation of ZendeskService.update_ticket (services/zendesk.py).
The missing-configuration ValueError raised by _get_headers before the
network call is caught by the except branch of the source, which yields
the exception error dict; in that case no PUT is issued.  Otherwise one
PUT is issued and the result depends on the simulated status code. -/
def update_ticket (cfg : ZendeskConfig) (ticket_id : String) (update_data : Jv)
    (operation_description : String) (net : NetReply) : Jv × List PutRequest :=
  if cfg.zendesk_domain ≠ "" ∧ cfg.zendesk_email ≠ "" ∧ cfg.zendesk_api_key ≠ "" then
    let req : PutRequest :=
      ⟨"https://" ++ cfg.zendesk_domain ++ "/api/v2/tickets/" ++ ticket_id ++ ".json", update_data⟩
    if net.status_code = 200 then
      (Jv.obj [("status", Jv.str "success"),
               ("message", Jv.str ("Ticket " ++ ticket_id ++ " " ++ operation_description ++ " successfully")),
               ("zendesk_response", net.json_body)], [req])
    else
      (Jv.obj [("status", Jv.str "error"),
               ("message", Jv.str ("Failed to " ++ operation_description ++ " Zendesk ticket: " ++ toString net.status_code)),
               ("zendesk_response", Jv.str net.text)], [req])
  else
    (Jv.obj [("status", Jv.str "error"),
             ("message", Jv.str ("Exception occurred while " ++ operation_description ++ " ticket: Missing Zendesk configuration. Please set zendesk_domain, zendesk_email, and zendesk_api_key environment variables."))], [])

/-- The update body built by ZendeskService.update_ticket_tags: one tag
derived from the category and one private comment stating category and
confidence percentage. -/
def tag_update_data (category : String) (confidence : PyNum) : Jv :=
  Jv.obj [("ticket", Jv.obj
    [("tags", Jv.arr [Jv.str ("auto_categorized_" ++ category)]),
     ("comment", Jv.obj
       [("body", Jv.str ("Ticket automatically categorized as \x27" ++ category ++ "\x27 with "
                          ++ formatPercentPy confidence ++ ".")),
        ("public", Jv.bool false)])])]

/-- Translation of ZendeskService.update_ticket_tags (services/zendesk.py).
On a non-success categorization response it returns the invalid-response
error dict embedding the original response and issues no PUT; on success
it builds the tag update body, delegates to update_ticket, and on a
successful update adds the category and confidence keys to the result. -/
def update_ticket_tags (cfg : ZendeskConfig) (categorization_response : CategorizationResponse)
    (ticket_id : String) (net : NetReply) : Jv × List PutRequest :=
  if categorization_response.status = some "success" then
    let category := categorization_response.category.getD "unknown"
    let confidence := categorization_response.confidence.getD ⟨0, 1⟩
    let r := update_ticket cfg ticket_id (tag_update_data category confidence) "categorized" net
    if jvStatusIsSuccess r.1 then
      (jvObjSet (jvObjSet r.1 "category" (Jv.str category)) "confidence" (Jv.num confidence), r.2)
    else r
  else
    (Jv.obj [("status", Jv.str "error"),
             ("message", Jv.str "Invalid Azure OpenAI response"),
             ("categorization_response", jvOfCategorization categorization_response)], [])

/-- The update body built by the router helper update_zendesk_ticket_tags
(app/routers/webhook.py); its comment body also names the model used. -/
def webhook_tag_update_data (category : String) (confidence : PyNum) (model_used : String) : Jv :=
  Jv.obj [("ticket", Jv.obj
    [("tags", Jv.arr [Jv.str ("auto_categorized_" ++ category)]),
     ("comment", Jv.obj
       [("body", Jv.str ("Ticket automatically categorized as \x27" ++ category ++ "\x27 with "
                          ++ formatPercentPy confidence ++ " confidence using " ++ model_used ++ " model.")),
        ("public", Jv.bool false)])])]

/-- Translation of update_zendesk_ticket_tags (app/routers/webhook.py).
The non-success branch returns the invalid-response error dict embedding
the original response before any configuration check or network call. -/
def update_zendesk_ticket_tags (cfg : ZendeskConfig) (huggingface_response : CategorizationResponse)
    (ticket_id : String) (net : NetReply) : Jv × List PutRequest :=
  if huggingface_response.status = some "success" then
    let category := huggingface_response.category.getD "unknown"
    let confidence := huggingface_response.confidence.getD ⟨0, 1⟩
    let model_used := huggingface_response.model_used.getD "unknown"
    if cfg.zendesk_domain ≠ "" ∧ cfg.zendesk_email ≠ "" ∧ cfg.zendesk_api_key ≠ "" then
      let req : PutRequest :=
        ⟨"https://" ++ cfg.zendesk_domain ++ "/api/v2/tickets/" ++ ticket_id ++ ".json",
         webhook_tag_update_data category confidence model_used⟩
      if net.status_code = 200 then
        (Jv.obj [("status", Jv.str "success"),
                 ("message", Jv.str ("Ticket " ++ ticket_id ++ " updated successfully")),
                 ("category", Jv.str category),
                 ("confidence", Jv.num confidence),
                 ("zendesk_response", net.json_body)], [req])
      else
        (Jv.obj [("status", Jv.str "error"),
                 ("message", Jv.str ("Failed to update Zendesk ticket: " ++ toString net.status_code)),
                 ("zendesk_response", Jv.str net.text)], [req])
    else
      (Jv.obj [("status", Jv.str "error"),
               ("message", Jv.str "Missing Zendesk configuration. Please set ZENDESK_DOMAIN, ZENDESK_EMAIL, and ZENDESK_API_TOKEN environment variables.")], [])
  else
    (Jv.obj [("status", Jv.str "error"),
             ("message", Jv.str "Invalid HuggingFace response"),
             ("huggingface_response", jvOfCategorization huggingface_response)], [])

/-- Model of the free-form LLM analysis dict consumed by
ZendeskService._format_analysis_for_comment: one Option field per key the
source reads; a none field models an absent key. -/
structure AnalysisData where
  summary : Option String
  sentiment : Option String
  satisfaction_likelihood : Option String
  agent_empathy_score : Option Int
  clarity_score : Option Int
  pain_points : Option (List String)
  frustration_signals : Option (List String)
  action_recommendations : Option (List String)
  resolution_confidence : Option String
deriving DecidableEq

/-- Python truthiness of an optional string value (absent and empty are
both falsy). -/
def truthyStr : Option String → Bool
  | some s => if s = "" then false else true
  | none => false

/-- Python truthiness of an optional integer value (absent and zero are
both falsy). -/
def truthyInt : Option Int → Bool
  | some n => if n = 0 then false else true
  | none => false

/-- Python truthiness of an optional list value (absent and empty are
both falsy); this also covers the double test the source applies to the
list-valued analysis keys. -/
def truthyList : Option (List String) → Bool
  | some l => !l.isEmpty
  | none => false

/-- Sentiment emoji map with its unknown-value default. -/
def sentimentEmoji (s : String) : String :=
  if s = "Positive" then "😊"
  else if s = "Neutral" then "😐"
  else if s = "Negative" then "😞"
  else "❓"

/-- Satisfaction emoji map with its unknown-value default. -/
def satisfactionEmoji (s : String) : String :=
  if s = "High" then "✅"
  else if s = "Medium" then "⚠️"
  else if s = "Low" then "❌"
  else "❓"

/-- Translation of ZendeskService._format_analysis_for_comment
(services/zendesk.py): a list of comment lines is assembled, starting with
the report header and an empty line, each optional section gated on the
truthiness of its field, and the lines are joined with newlines. -/
def format_analysis_for_comment (analysis : AnalysisData) : String :=
  String.intercalate "\n" (
    ["🤖 **AI Analysis Report**", ""]
    ++ (if truthyStr analysis.summary then
          ["**Summary:** " ++ analysis.summary.getD "", ""] else [])
    ++ (if truthyStr analysis.sentiment then
          ["**Sentiment:** " ++ sentimentEmoji (analysis.sentiment.getD "") ++ " "
            ++ analysis.sentiment.getD ""] else [])
    ++ (if truthyStr analysis.satisfaction_likelihood then
          ["**Satisfaction Likelihood:** " ++ satisfactionEmoji (analysis.satisfaction_likelihood.getD "")
            ++ " " ++ analysis.satisfaction_likelihood.getD ""] else [])
    ++ (if truthyInt analysis.agent_empathy_score then
          ["**Agent Empathy Score:** " ++ toString (analysis.agent_empathy_score.getD 0) ++ "/5"] else [])
    ++ (if truthyInt analysis.clarity_score then
          ["**Clarity Score:** " ++ toString (analysis.clarity_score.getD 0) ++ "/5"] else [])
    ++ (if truthyList analysis.pain_points then
          ["", "**Pain Points:**"] ++ (analysis.pain_points.getD []).map (fun p => "• " ++ p) else [])
    ++ (if truthyList analysis.frustration_signals then
          ["", "**Frustration Signals:**"] ++ (analysis.frustration_signals.getD []).map (fun p => "• " ++ p) else [])
    ++ (if truthyList analysis.action_recommendations then
          ["", "**Action Recommendations:**"] ++ (analysis.action_recommendations.getD []).map (fun p => "• " ++ p) else [])
    ++ (if truthyStr analysis.resolution_confidence then
          ["", "**Resolution Confidence:** " ++ analysis.resolution_confidence.getD ""] else []))

/-- The analysis dict with every optional field absent (this is also the
image of the empty dict, whose reads through .get all yield absent). -/
def emptyAnalysis : AnalysisData :=
  ⟨none, none, none, none, none, none, none, none, none⟩

/-- Model of one raw Zendesk comment as consumed by
ZendeskService.extract_ticket_comments: the four keys the source reads,
plus a field standing for all remaining key/value pairs of the raw dict. -/
structure RawComment where
  is_public : Option Bool
  plain_body : Option String
  created_at : Option String
  author_id : Option String
  other_fields : List (String × String)
deriving DecidableEq

/-- Projection of a kept comment, holding exactly the three projected
keys; every other field of the raw comment is dropped. -/
structure PublicComment where
  plain_body : String
  created_at : String
  author_id : String
deriving DecidableEq

/-- The three-field projection applied to a kept comment, with the empty
defaults the source passes to .get. -/
def projectComment (c : RawComment) : PublicComment :=
  ⟨c.plain_body.getD "", c.created_at.getD "", c.author_id.getD ""⟩

/-- Translation of the comment pipeline of
ZendeskService.extract_ticket_comments (services/zendesk.py): the list
comprehension keeps the comments whose public flag reads true (absent
defaults to false) and projects each kept comment. -/
def extract_ticket_comments : List RawComment → List PublicComment
  | [] => []
  | c :: cs =>
    if c.is_public.getD false then projectComment c :: extract_ticket_comments cs
    else extract_ticket_comments cs

/-- Word characters of the regex word-boundary class, for the ASCII range
the greeting patterns use. -/
def isWordChar (c : Char) : Bool := c.isAlphanum || c = '_'

/-- A word boundary holds after a consumed word when the input ends or the
next character is not a word character. -/
def boundaryNext : List Char → Bool
  | [] => true
  | c :: _ => !isWordChar c

/-- Consume a literal from the front of the input, returning the rest. -/
def dropLit : List Char → List Char → Option (List Char)
  | [], s => some s
  | _ :: _, [] => none
  | c :: cs, x :: xs => if c = x then dropLit cs xs else none

/-- Match of an anchored word pattern followed by a word boundary, as the
greeting regexes anchored at the start of the message behave. -/
def matchWordAt (w : String) (s : List Char) : Bool :=
  match dropLit w.toList s with
  | some rest => boundaryNext rest
  | none => false

/-- Match of the good-greeting pattern: the literal good, any run of
whitespace, then one of morning, afternoon or evening at a boundary. -/
def matchGoodGreeting (s : List Char) : Bool :=
  match dropLit "good".toList s with
  | some rest =>
    let rest2 := rest.dropWhile isPySpace
    (match dropLit "morning".toList rest2 with | some r => boundaryNext r | none => false)
    || (match dropLit "afternoon".toList rest2 with | some r => boundaryNext r | none => false)
    || (match dropLit "evening".toList rest2 with | some r => boundaryNext r | none => false)
  | none => false

/-- Match of the thank-you pattern: the literal thank, any run of
whitespace, then you at a boundary. -/
def matchThankYou (s : List Char) : Bool :=
  match dropLit "thank".toList s with
  | some rest =>
    match dropLit "you".toList (rest.dropWhile isPySpace) with
    | some r => boundaryNext r
    | none => false
  | none => false

/-- Disjunction of the fixed generic/greeting patterns of
TwilioService.validate_whatsapp_content, each anchored at the start of the
lower-cased message; the optional-s pattern for thanks is the two word
alternatives. -/
def matchesGenericGreeting (s : String) : Bool :=
  matchWordAt "hi" s.toList || matchWordAt "hello" s.toList || matchWordAt "hey" s.toList
  || matchGoodGreeting s.toList
  || matchWordAt "thank" s.toList || matchWordAt "thanks" s.toList || matchThankYou s.toList
  || matchWordAt "ok" s.toList || matchWordAt "okay" s.toList || matchWordAt "yes" s.toList
  || matchWordAt "no" s.toList || matchWordAt "help" s.toList || matchWordAt "support" s.toList

/-- The fixed issue-keyword list of TwilioService.validate_whatsapp_content. -/
def issueKeywords : List String :=
  ["problem", "issue", "error", "bug", "broken", "not working", "can\x27t", "cannot",
   "failed", "failure", "trouble", "difficulty", "question", "inquiry", "request",
   "need", "want", "looking for", "searching for", "trying to", "attempting to"]

/-- Keyword scan over the lower-cased message. -/
def hasIssueKeywords (lowered : String) : Bool :=
  issueKeywords.any (fun k => pyContains lowered k)

/-- Translation of TwilioService.validate_whatsapp_content
(services/twilio.py): empty and whitespace-only messages are rejected
first, then messages whose stripped length is under 10, then messages
matching a generic greeting pattern, then messages under 20 characters
without an issue keyword; anything else is accepted. -/
def validate_whatsapp_content (message_body : String) : Bool × String :=
  if message_body = "" ∨ stripPy message_body = "" then
    (false, "Message is empty")
  else if (stripPy message_body).length < 10 then
    (false, "Please provide more details about your issue.")
  else if matchesGenericGreeting (pyLower (stripPy message_body)) then
    (false, "Please provide more details about your issue.")
  else if !hasIssueKeywords (pyLower (stripPy message_body)) && (stripPy message_body).length < 20 then
    (false, "Please describe your issue or request. For example: \x27I can\x27t log into my account\x27 or \x27Need help with billing\x27")
  else
    (true, "Content is valid")

/-- The piece of a string before the first occurrence of the separator
(the whole string when the separator is absent), as the first element of a
Python str.split. -/
def firstSplitPiece (sep : Char) (s : String) : String :=
  String.mk (s.toList.takeWhile (fun c => c ≠ sep))

/-- Translation of TwilioService._generate_subject (services/twilio.py):
the stripped text before the first period, truncated to 47 characters plus
an ellipsis when longer than 50, with a generic fallback when empty. -/
def generate_subject (message : String) : String :=
  let first_sentence := stripPy (firstSplitPiece '.' message)
  let first_sentence :=
    if first_sentence.length > 50 then String.mk (first_sentence.toList.take 47) ++ "..."
    else first_sentence
  if first_sentence ≠ "" then first_sentence else "WhatsApp Support Request"

/-- Subject derived for a WhatsApp message body by
TwilioService.create_ticket_from_whatsapp, which strips the body and
passes it to _generate_subject. -/
def whatsapp_ticket_subject (message_body : String) : String :=
  generate_subject (stripPy message_body)

/-- The stripped first sentence of the stripped message body, the quantity
the derived subject is compared against. -/
def first_sentence_of (message_body : String) : String :=
  stripPy (firstSplitPiece '.' (stripPy message_body))

/-- Translation of TwilioService._format_whatsapp_number
(services/twilio.py), including the duplicated second eleven-digit branch
of the source, which is unreachable but kept for faithfulness. -/
def format_whatsapp_number (phone_number : String) : String :=
  if (digitsOnly phone_number).length = 10 then
    "whatsapp:+1" ++ digitsOnly phone_number
  else if (digitsOnly phone_number).length = 11 ∧ pyStartsWith (digitsOnly phone_number) "1" = true then
    "whatsapp:+" ++ digitsOnly phone_number
  else if pyStartsWith (digitsOnly phone_number) "1" = true ∧ (digitsOnly phone_number).length = 11 then
    "whatsapp:+" ++ digitsOnly phone_number
  else if pyStartsWith phone_number "+" = true then
    "whatsapp:" ++ phone_number
  else
    "whatsapp:+" ++ digitsOnly phone_number

/-- Parsed shape of a status-changed webhook body whose event and detail
members are objects: the three leaves the handler reads, each absent when
the corresponding key is missing. -/
structure StatusChangedEvent where
  event_current : Option String
  detail_status : Option String
  detail_id : Option String
deriving DecidableEq

/-- Translation of ticket_status_changed_webhook (app/routers/webhook.py)
on a parsed JSON body.  The first component is the JSON response; the
second records whether the comment-analysis pathway (the
extract_ticket_comments call that fetches the public comments of the
ticket) was invoked.  The pathway runs only when both status fields read
SOLVED and the ticket id is non-empty. -/
def ticket_status_changed_webhook (e : StatusChangedEvent) (request_id timestamp : String) :
    Jv × Bool :=
  if e.event_current.getD "" = "SOLVED" ∧ e.detail_status.getD "" = "SOLVED" then
    (Jv.obj [("status", Jv.str "success"),
             ("message", Jv.str "Ticket status changed to SOLVED"),
             ("request_id", Jv.str request_id),
             ("timestamp", Jv.str timestamp),
             ("ticket_id", Jv.str (e.detail_id.getD "")),
             ("current_status", Jv.str (e.event_current.getD "")),
             ("ticket_status", Jv.str (e.detail_status.getD ""))],
     if e.detail_id.getD "" = "" then false else true)
  else
    (Jv.obj [("status", Jv.str "success"),
             ("message", Jv.str "Ticket status changed but not to SOLVED"),
             ("request_id", Jv.str request_id),
             ("timestamp", Jv.str timestamp),
             ("ticket_id", Jv.str (e.detail_id.getD "")),
             ("current_status", Jv.str (e.event_current.getD "")),
             ("ticket_status", Jv.str (e.detail_status.getD ""))],
     false)

/-- The detail object of a ticket-created webhook body: the three leaves
the handler reads. -/
structure TicketDetail where
  subject : Option String
  description : Option String
  id : Option String
deriving DecidableEq

/-- Translation of the success response of ticket_created_webhook
(app/routers/webhook.py) for a request whose processing raises no
exception: the huggingface response is embedded under its key, and the
Zendesk update result is the update outcome when a ticket id was
extracted, else the None the handler initialised it with. -/
def ticket_created_webhook (detail : Option TicketDetail) (request_id timestamp data_type : String)
    (huggingface_response : Jv) (zendesk_result : Jv) : Jv :=
  let ticket_id := (detail.map (fun d => d.id.getD "")).getD ""
  Jv.obj [("status", Jv.str "success"),
          ("message", Jv.str "Webhook logged successfully"),
          ("request_id", Jv.str request_id),
          ("timestamp", Jv.str timestamp),
          ("data_type", Jv.str data_type),
          ("huggingface_response", huggingface_response),
          ("zendesk_update_result", if ticket_id ≠ "" then zendesk_result else Jv.null)]

/-- Concrete Zendesk configuration used to instantiate closed statements. -/
def zendeskTestConfig : ZendeskConfig :=
  ⟨"example.zendesk.com", "agent@example.com", "token123"⟩

/-- Concrete successful network reply used to instantiate closed
statements. -/
def netOk200 : NetReply := ⟨200, Jv.obj [], ""⟩

/-- The classification result named by the claims: success, category
engineering, confidence 0.87. -/
def engineeringCategorization : CategorizationResponse :=
  ⟨some "success", some "engineering", some ⟨87, 100⟩, none⟩

/-- Claim C1, counterexample: a status-changed body whose two status
fields both read SOLVED but whose detail object carries no id.  The claim
as stated requires the comment-analysis pathway to run for every such
body, but the handler skips the extract_ticket_comments call when the
ticket id is empty. -/
theorem claim_C1_counterexample :
    (ticket_status_changed_webhook ⟨some "SOLVED", some "SOLVED", none⟩
      "req-1" "2024-01-01T00:00:00").2 = false := by
  rfl

/-- Claim C1, amended: when both status fields read SOLVED and the ticket
id is non-empty the comment-analysis pathway is invoked; when both read
SOLVED but the id is empty it is skipped; for every other combination of
the two status fields it is not invoked and the response message reports
that the ticket status is not SOLVED. -/
theorem claim_C1_solved_gate (e : StatusChangedEvent) (request_id timestamp : String) :
    ((e.event_current.getD "" = "SOLVED" ∧ e.detail_status.getD "" = "SOLVED"
        ∧ e.detail_id.getD "" ≠ "") →
      (ticket_status_changed_webhook e request_id timestamp).2 = true)
  ∧ ((e.event_current.getD "" = "SOLVED" ∧ e.detail_status.getD "" = "SOLVED"
        ∧ e.detail_id.getD "" = "") →
      (ticket_status_changed_webhook e request_id timestamp).2 = false)
  ∧ (¬(e.event_current.getD "" = "SOLVED" ∧ e.detail_status.getD "" = "SOLVED") →
      (ticket_status_changed_webhook e request_id timestamp).2 = false
      ∧ jget (ticket_status_changed_webhook e request_id timestamp).1 "message"
          = some (Jv.str "Ticket status changed but not to SOLVED")) := by
  refine ⟨?_, ?_, ?_⟩
  · rintro ⟨h1, h2, h3⟩
    unfold ticket_status_changed_webhook
    rw [if_pos (And.intro h1 h2)]
    show (if e.detail_id.getD "" = "" then false else true) = true
    rw [if_neg h3]
  · rintro ⟨h1, h2, h3⟩
    unfold ticket_status_changed_webhook
    rw [if_pos (And.intro h1 h2)]
    show (if e.detail_id.getD "" = "" then false else true) = false
    rw [if_pos h3]
  · intro h
    unfold ticket_status_changed_webhook
    rw [if_neg h]
    exact ⟨rfl, rfl⟩

/-- Witness for claim C1: a concrete SOLVED/SOLVED body with ticket id 42
invokes the comment-analysis pathway. -/
theorem claim_C1_witness :
    (ticket_status_changed_webhook ⟨some "SOLVED", some "SOLVED", some "42"⟩
      "req-1" "2024-01-01T00:00:00").2 = true :=
  (claim_C1_solved_gate ⟨some "SOLVED", some "SOLVED", some "42"⟩
    "req-1" "2024-01-01T00:00:00").1 (by decide)

/-- Claim C2: for the classification result success / engineering / 0.87,
the tag-update operation issues exactly one PUT whose body carries the
single tag auto_categorized_engineering and a private comment whose body
contains 87.00%; the same holds of the router helper variant, whose
comment also names the model. -/
theorem claim_C2_tag_update_body :
    (update_ticket_tags zendeskTestConfig engineeringCategorization "123" netOk200).2
      = [⟨"https://example.zendesk.com/api/v2/tickets/123.json",
          tag_update_data "engineering" ⟨87, 100⟩⟩]
  ∧ jget2 (tag_update_data "engineering" ⟨87, 100⟩) "ticket" "tags"
      = some (Jv.arr [Jv.str "auto_categorized_engineering"])
  ∧ jget3 (tag_update_data "engineering" ⟨87, 100⟩) "ticket" "comment" "body"
      = some (Jv.str ("Ticket automatically categorized as \x27engineering\x27 with "
                       ++ "87.00%" ++ "."))
  ∧ jget3 (tag_update_data "engineering" ⟨87, 100⟩) "ticket" "comment" "public"
      = some (Jv.bool false)
  ∧ (update_zendesk_ticket_tags zendeskTestConfig engineeringCategorization "123" netOk200).2.map
        PutRequest.update_data
      = [webhook_tag_update_data "engineering" ⟨87, 100⟩ "unknown"]
  ∧ jget2 (webhook_tag_update_data "engineering" ⟨87, 100⟩ "unknown") "ticket" "tags"
      = some (Jv.arr [Jv.str "auto_categorized_engineering"])
  ∧ jget3 (webhook_tag_update_data "engineering" ⟨87, 100⟩ "unknown") "ticket" "comment" "body"
      = some (Jv.str ("Ticket automatically categorized as \x27engineering\x27 with "
                       ++ "87.00%" ++ " confidence using unknown model.")) :=
  ⟨rfl, rfl, rfl, rfl, rfl, rfl, rfl⟩

/-- Claim C3: the comment pipeline keeps exactly the comments whose public
flag reads true and projects each kept comment to the three retained
fields; in particular a two-element list with one public and one
non-public comment yields exactly the one projected comment, with all
other raw fields dropped. -/
theorem claim_C3_public_comment_projection :
    (∀ l : List RawComment,
        extract_ticket_comments l
          = (l.filter (fun c => c.is_public.getD false)).map projectComment)
  ∧ extract_ticket_comments
      [⟨some true, some "First reply", some "2024-01-01T00:00:00Z", some "1001",
        [("id", "11"), ("via", "web")]⟩,
       ⟨some false, some "Internal note", some "2024-01-02T00:00:00Z", some "1002",
        [("id", "12")]⟩]
      = [⟨"First reply", "2024-01-01T00:00:00Z", "1001"⟩] := by
  constructor
  · intro l
    induction l with
    | nil => rfl
    | cons c cs ih =>
      by_cases h : c.is_public.getD false = true
      · simp [extract_ticket_comments, List.filter_cons, h, ih]
      · simp [extract_ticket_comments, List.filter_cons, h, ih]
  · decide

/-- Claim C4, counterexample: the plus-prefixed ten-digit number
+5551234567 is an already-prefixed number, yet the formatter does not pass
it through unchanged apart from the whatsapp prefix; it prepends 1 to the
digits instead. -/
theorem claim_C4_counterexample :
    pyStartsWith "+5551234567" "+" = true
  ∧ format_whatsapp_number "+5551234567" = "whatsapp:+15551234567"
  ∧ format_whatsapp_number "+5551234567" ≠ "whatsapp:" ++ "+5551234567" := by
  decide

/-- Claim C4, amended: the three concrete mappings of the claim hold;
every number with exactly ten digits gains a plus-one prefix; every number
with eleven digits starting with one gains a plus; and a plus-prefixed
number passes through unchanged apart from the whatsapp prefix only when
its digit string falls outside those two patterns (a plus-prefixed
ten-digit number instead gains plus-one on its digits). -/
theorem claim_C4_phone_format :
    format_whatsapp_number "5551234567" = "whatsapp:+15551234567"
  ∧ format_whatsapp_number "15551234567" = "whatsapp:+15551234567"
  ∧ format_whatsapp_number "+15551234567" = "whatsapp:+15551234567"
  ∧ (∀ p : String, (digitsOnly p).length = 10 →
      format_whatsapp_number p = "whatsapp:+1" ++ digitsOnly p)
  ∧ (∀ p : String, (digitsOnly p).length = 11 → pyStartsWith (digitsOnly p) "1" = true →
      format_whatsapp_number p = "whatsapp:+" ++ digitsOnly p)
  ∧ (∀ p : String, pyStartsWith p "+" = true → (digitsOnly p).length ≠ 10 →
      ¬((digitsOnly p).length = 11 ∧ pyStartsWith (digitsOnly p) "1" = true) →
      format_whatsapp_number p = "whatsapp:" ++ p) := by
  refine ⟨by decide, by decide, by decide, ?_, ?_, ?_⟩
  · intro p h
    unfold format_whatsapp_number
    rw [if_pos h]
  · intro p h1 h2
    have h10 : ¬(digitsOnly p).length = 10 := by omega
    unfold format_whatsapp_number
    rw [if_neg h10, if_pos (And.intro h1 h2)]
  · intro p hplus h10 h11
    have h11b : ¬(pyStartsWith (digitsOnly p) "1" = true ∧ (digitsOnly p).length = 11) :=
      fun hc => h11 ⟨hc.2, hc.1⟩
    unfold format_whatsapp_number
    rw [if_neg h10, if_neg h11, if_neg h11b, if_pos hplus]

/-- Witness for claim C4: a ten-digit number takes the plus-one branch and
a plus-prefixed twelve-digit number passes through. -/
theorem claim_C4_witness :
    (digitsOnly "5551234567").length = 10
  ∧ pyStartsWith "+442071234567" "+" = true
  ∧ format_whatsapp_number "5551234567" = "whatsapp:+1" ++ digitsOnly "5551234567"
  ∧ format_whatsapp_number "+442071234567" = "whatsapp:" ++ "+442071234567" :=
  ⟨by decide, by decide,
   claim_C4_phone_format.2.2.2.1 "5551234567" (by decide),
   claim_C4_phone_format.2.2.2.2.2 "+442071234567" (by decide) (by decide) (by decide)⟩

/-- Claim C5: every message whose stripped, lower-cased text matches one
of the fixed greeting patterns is rejected by the content validation,
whatever its length. -/
theorem claim_C5_greeting_rejected (message_body : String)
    (h : matchesGenericGreeting (pyLower (stripPy message_body)) = true) :
    (validate_whatsapp_content message_body).1 = false := by
  unfold validate_whatsapp_content
  split_ifs <;> rfl

/-- Witness for claim C5: a greeting-matching message of length at least
ten is rejected. -/
theorem claim_C5_witness :
    matchesGenericGreeting (pyLower (stripPy "hello there, friend")) = true
  ∧ (stripPy "hello there, friend").length ≥ 10
  ∧ (validate_whatsapp_content "hello there, friend").1 = false :=
  ⟨by decide, by decide, claim_C5_greeting_rejected "hello there, friend" (by decide)⟩

/-- Claim C6, counterexample: the empty body has stripped length under
ten, yet validation rejects it with the message-is-empty reason rather
than the provide-more-details guidance the claim requires. -/
theorem claim_C6_counterexample :
    (stripPy "").length < 10
  ∧ validate_whatsapp_content "" = (false, "Message is empty")
  ∧ validate_whatsapp_content "" ≠ (false, "Please provide more details about your issue.") := by
  decide

/-- Claim C6, amended: every message that is non-empty after stripping and
has stripped length under ten is rejected with the provide-more-details
guidance (empty and whitespace-only messages are instead rejected with the
message-is-empty reason). -/
theorem claim_C6_short_message (message_body : String)
    (hne : stripPy message_body ≠ "") (hlen : (stripPy message_body).length < 10) :
    validate_whatsapp_content message_body
      = (false, "Please provide more details about your issue.") := by
  have h1 : ¬(message_body = "" ∨ stripPy message_body = "") := by
    rintro (rfl | hc)
    · exact hne (by decide)
    · exact hne hc
  unfold validate_whatsapp_content
  rw [if_neg h1, if_pos hlen]

/-- Witness for claim C6: a five-character message is rejected with the
provide-more-details guidance. -/
theorem claim_C6_witness :
    stripPy "short" ≠ ""
  ∧ (stripPy "short").length < 10
  ∧ validate_whatsapp_content "short"
      = (false, "Please provide more details about your issue.") :=
  ⟨by decide, by decide, claim_C6_short_message "short" (by decide) (by decide)⟩

/-- Claim C7, counterexample: the success response of the ticket-created
webhook carries no key named categorization_response (the classification
result is embedded under the key huggingface_response instead), so the
claimed key set is wrong. -/
theorem claim_C7_counterexample :
    "categorization_response" ∉
      jvKeys (ticket_created_webhook
        (some ⟨some "Login broken", some "Cannot sign in", some "123"⟩)
        "req-1" "2024-01-01T00:00:00" "JSON" (Jv.obj []) (Jv.obj [])) := by
  decide

/-- Claim C7, amended: for every request whose processing raises no
exception the ticket-created webhook response carries exactly the keys
status, message, request_id, timestamp, data_type, huggingface_response
and zendesk_update_result, in that order. -/
theorem claim_C7_response_keys (detail : Option TicketDetail)
    (request_id timestamp data_type : String) (huggingface_response zendesk_result : Jv) :
    jvKeys (ticket_created_webhook detail request_id timestamp data_type
      huggingface_response zendesk_result)
      = ["status", "message", "request_id", "timestamp", "data_type",
         "huggingface_response", "zendesk_update_result"] :=
  rfl

/-- Claim C8: for every valid message body, the derived ticket subject is
the stripped first sentence when that sentence is non-empty and at most
fifty characters; the first forty-seven characters followed by an ellipsis
when it is longer than fifty; and the generic fallback when it is empty. -/
theorem claim_C8_subject_derivation (message_body : String)
    (hvalid : (validate_whatsapp_content message_body).1 = true) :
    (first_sentence_of message_body ≠ "" → (first_sentence_of message_body).length ≤ 50 →
        whatsapp_ticket_subject message_body = first_sentence_of message_body)
  ∧ ((first_sentence_of message_body).length > 50 →
        whatsapp_ticket_subject message_body
          = String.mk ((first_sentence_of message_body).toList.take 47) ++ "...")
  ∧ (first_sentence_of message_body = "" →
        whatsapp_ticket_subject message_body = "WhatsApp Support Request") := by
  unfold whatsapp_ticket_subject first_sentence_of
  generalize stripPy message_body = m
  simp only [generate_subject]
  by_cases hlen : (stripPy (firstSplitPiece '.' m)).length > 50
  · simp only [if_pos hlen]
    have hne2 : String.mk ((stripPy (firstSplitPiece '.' m)).toList.take 47) ++ "..." ≠ "" := by
      intro hemp
      have h2 : (stripPy (firstSplitPiece '.' m)).toList.take 47 ++ ['.', '.', '.']
          = ([] : List Char) := congrArg String.data hemp
      simp at h2
    rw [if_pos hne2]
    refine ⟨?_, ?_, ?_⟩
    · intro _ hle
      exact absurd hle (by omega)
    · intro _
      rfl
    · intro h0
      rw [h0] at hlen
      exact absurd hlen (by decide)
  · simp only [if_neg hlen]
    by_cases h0 : stripPy (firstSplitPiece '.' m) = ""
    · rw [if_neg (fun hc => hc h0)]
      refine ⟨?_, ?_, ?_⟩
      · intro hne _
        exact absurd h0 hne
      · intro hgt
        rw [h0] at hgt
        exact absurd hgt (by decide)
      · intro _
        rfl
    · rw [if_pos h0]
      refine ⟨?_, ?_, ?_⟩
      · intro _ _
        rfl
      · intro hgt
        exact absurd hgt hlen
      · intro hx
        exact absurd hx h0

/-- Witness for claim C8: a valid body whose first sentence is short and
non-empty yields that sentence as the subject. -/
theorem claim_C8_witness :
    (validate_whatsapp_content "I cannot log in. Error 500.").1 = true
  ∧ whatsapp_ticket_subject "I cannot log in. Error 500." = "I cannot log in" :=
  ⟨by decide,
   (claim_C8_subject_derivation "I cannot log in. Error 500." (by decide)).1
     (by decide) (by decide)⟩

/-- Claim C9: formatting the analysis in which every optional field is
absent (the image of the empty dict) is a total operation whose result
still starts with the literal report header. -/
theorem claim_C9_empty_analysis_format :
    format_analysis_for_comment emptyAnalysis = "🤖 **AI Analysis Report**" ++ "\n"
  ∧ pyStartsWith (format_analysis_for_comment emptyAnalysis) "🤖 **AI Analysis Report**" = true := by
  decide

/-- Claim C10: for every classification result whose status is not
success, both tag-update operations return the invalid-response error dict
embedding the original classification response, and the PUT trace is
empty, so no ticket update is issued on this path. -/
theorem claim_C10_error_no_put (cfg : ZendeskConfig) (resp : CategorizationResponse)
    (ticket_id : String) (net : NetReply) (h : resp.status ≠ some "success") :
    update_ticket_tags cfg resp ticket_id net
      = (Jv.obj [("status", Jv.str "error"),
                 ("message", Jv.str "Invalid Azure OpenAI response"),
                 ("categorization_response", jvOfCategorization resp)], [])
  ∧ update_zendesk_ticket_tags cfg resp ticket_id net
      = (Jv.obj [("status", Jv.str "error"),
                 ("message", Jv.str "Invalid HuggingFace response"),
                 ("huggingface_response", jvOfCategorization resp)], []) := by
  constructor
  · unfold update_ticket_tags
    rw [if_neg h]
  · unfold update_zendesk_ticket_tags
    rw [if_neg h]

/-- Witness for claim C10: a concrete error-status response produces the
embedded error dicts and an empty PUT trace. -/
theorem claim_C10_witness :
    (⟨some "error", none, none, none⟩ : CategorizationResponse).status ≠ some "success"
  ∧ update_ticket_tags zendeskTestConfig ⟨some "error", none, none, none⟩ "123" netOk200
      = (Jv.obj [("status", Jv.str "error"),
                 ("message", Jv.str "Invalid Azure OpenAI response"),
                 ("categorization_response",
                  jvOfCategorization ⟨some "error", none, none, none⟩)], [])
  ∧ update_zendesk_ticket_tags zendeskTestConfig ⟨some "error", none, none, none⟩ "123" netOk200
      = (Jv.obj [("status", Jv.str "error"),
                 ("message", Jv.str "Invalid HuggingFace response"),
                 ("huggingface_response",
                  jvOfCategorization ⟨some "error", none, none, none⟩)], []) :=
  ⟨by decide,
   (claim_C10_error_no_put zendeskTestConfig ⟨some "error", none, none, none⟩ "123" netOk200
     (by decide)).1,
   (claim_C10_error_no_put zendeskTestConfig ⟨some "error", none, none, none⟩ "123" netOk200
     (by decide)).2⟩
